import Mathlib

/-!
Verification development for the agency creator payout application.

The embedding below translates the VAT classification logic
(`src/shared/vat-utils.ts` and its legacy copies) and the payment-request
lifecycle routes (`registerRoutes` in the server routes module, backed by
`DatabaseStorage` in `src/server/storage.ts`) into Lean.  Monetary values
(TypeScript `number`) are embedded as rationals; a separate binary64
rounding model is used where the distinction between exact rational
arithmetic and IEEE-754 floating point is itself the property at stake.
Country codes, business types and statuses are strings, as in the source.
-/

namespace Payout

/-- Result record of `calculateVAT` in `src/shared/vat-utils.ts`:
`{ rate, amount, total, isEUVATShift, note }`. -/
structure VATResult where
  rate : ℚ
  amount : ℚ
  total : ℚ
  isEUVATShift : Bool
  note : String
deriving DecidableEq, Repr

/-- The `EU_COUNTRY_CODES` set of `src/shared/vat-utils.ts` (27 codes). -/
def EU_COUNTRY_CODES : List String :=
  ["AT", "BE", "BG", "HR", "CY", "CZ", "DK", "EE",
   "FI", "FR", "DE", "GR", "HU", "IE", "IT", "LV",
   "LT", "LU", "MT", "NL", "PL", "PT", "RO", "SK",
   "SI", "ES", "SE"]

/-- `calculateVAT` from `src/shared/vat-utils.ts`, with the numeric
literals read as exact rationals (`0.21 ↦ 21/100`). -/
def calculateVAT (amount : ℚ) (countryCode businessType : String) : VATResult :=
  let isDutchVatRegistered := countryCode == "NL" && businessType == "vat_registered"
  let isEUNonDutchVatRegistered :=
    EU_COUNTRY_CODES.contains countryCode &&
    countryCode != "NL" &&
    businessType == "vat_registered"
  if isDutchVatRegistered then
    let rate : ℚ := 21 / 100
    let vatAmount := amount * rate
    { rate := rate
      amount := vatAmount
      total := amount + vatAmount
      isEUVATShift := false
      note := "Dutch VAT (21%) applied." }
  else if isEUNonDutchVatRegistered then
    { rate := 0
      amount := 0
      total := amount
      isEUVATShift := true
      note := "EU VAT reverse charge (VAT shifted)." }
  else
    { rate := 0
      amount := 0
      total := amount
      isEUVATShift := false
      note := "No VAT applicable." }

/-- One entry of the legacy `VAT_RATES` table in `src/unnamed/part_003`. -/
structure LegacyVATRate where
  country : String
  rate : ℚ
  countryName : String
deriving DecidableEq, Repr

/-- The legacy per-country percentage table of `src/unnamed/part_003`. -/
def legacyVAT_RATES : List LegacyVATRate :=
  [⟨"NL", 21, "Netherlands"⟩,
   ⟨"DE", 19, "Germany"⟩,
   ⟨"FR", 20, "France"⟩,
   ⟨"BE", 21, "Belgium"⟩,
   ⟨"ES", 21, "Spain"⟩,
   ⟨"IT", 22, "Italy"⟩,
   ⟨"UK", 20, "United Kingdom"⟩,
   ⟨"US", 0, "United States"⟩]

/-- Result record of the legacy `calculateVAT` in `src/unnamed/part_003`. -/
structure LegacyVATResult where
  rate : ℚ
  amount : ℚ
  note : String
deriving DecidableEq, Repr

/-- The legacy `calculateVAT` of `src/unnamed/part_003`: a per-country
percentage-table lookup.  `vatRate && country !== 'NL'` tests the found
record for truthiness, i.e. `Option.isSome` here. -/
def legacyCalculateVAT (amount : ℚ) (country businessType : String) :
    LegacyVATResult :=
  let vatRate := legacyVAT_RATES.find? (fun r => r.country == country)
  if businessType == "vat_registered" && vatRate.isSome && country != "NL" then
    { rate := 0, amount := 0, note := "EU VAT Reverse Charge" }
  else if businessType == "vat_exempt" then
    { rate := 0, amount := 0, note := "VAT Exempt" }
  else
    let rate := (vatRate.map (·.rate)).getD 0
    let vatAmount := amount * rate / 100
    { rate := rate
      amount := vatAmount
      note :=
        if rate > 0 then
          toString rate.num ++ "% VAT (" ++
            ((vatRate.map (·.countryName)).getD "") ++ ")"
        else "No VAT applicable" }

/-- The `vatRates` record of the inline `calculateVAT` in the older server
routes copy (`src/client/src/pages/payment-claim.tsx`, second document,
lines 448-474). -/
def routeVatRates : List (String × ℚ) :=
  [("NL", 21), ("DE", 19), ("FR", 20), ("BE", 21),
   ("ES", 21), ("IT", 22), ("UK", 20), ("US", 0)]

/-- Result record `{ rate, amount }` of the inline route `calculateVAT`. -/
structure RouteVATResult where
  rate : ℚ
  amount : ℚ
deriving DecidableEq, Repr

/-- The inline `calculateVAT` of the older server routes copy.  In
`vatRates[country] && country !== 'NL'` a missing key and the value `0`
are both falsy; `vatRates[country] || 0` maps a missing key and `0`
to `0`. -/
def routeCalculateVAT (amount : ℚ) (country businessType : String) :
    RouteVATResult :=
  let lookup := (routeVatRates.find? (fun p => p.1 == country)).map (·.2)
  let truthy := match lookup with
    | some r => r != 0
    | none => false
  if businessType == "vat_registered" && truthy && country != "NL" then
    { rate := 0, amount := 0 }
  else if businessType == "vat_exempt" then
    { rate := 0, amount := 0 }
  else
    let rate := match lookup with
      | some r => if r == 0 then 0 else r
      | none => 0
    { rate := rate, amount := amount * rate / 100 }

/-- The `EU_SET` of spec §4.1: the closed set of 27 member-state codes,
enumerated exactly as the spec lists them. -/
def EU_SET_SPEC : List String :=
  ["AT", "BE", "BG", "HR", "CY", "CZ", "DK", "EE", "FI", "FR", "DE", "GR",
   "HU", "IE", "IT", "LV", "LT", "LU", "MT", "NL", "PL", "PT", "RO", "SK",
   "SI", "ES", "SE"]

/-- The three-branch rule set written from the spec's words (§4.1,
first match wins), for comparison with `calculateVAT`. -/
def classifySpec (amount : ℚ) (countryCode businessCategory : String) :
    VATResult :=
  if countryCode = "NL" ∧ businessCategory = "vat_registered" then
    { rate := 21 / 100
      amount := amount * (21 / 100)
      total := amount * (121 / 100)
      isEUVATShift := false
      note := "Dutch VAT (21%) applied." }
  else if (countryCode ∈ EU_SET_SPEC ∧ countryCode ≠ "NL") ∧
      businessCategory = "vat_registered" then
    { rate := 0
      amount := 0
      total := amount
      isEUVATShift := true
      note := "EU VAT reverse charge (VAT shifted)." }
  else
    { rate := 0
      amount := 0
      total := amount
      isEUVATShift := false
      note := "No VAT applicable." }

/-- A row of the `creators` table (`src/server/storage.ts`, second
document: `shared/schema.ts`).  Timestamps are modelled as natural
numbers supplied by the caller («now»); Stripe capability flags are kept
because the process route reads them. -/
structure Creator where
  id : ℕ
  email : String
  fullName : String
  country : String
  businessType : String
  vatId : Option String
  companyName : Option String
  stripeAccountId : Option String
  invoiceMethod : String
  chargesEnabled : Bool
  payoutsEnabled : Bool
  createdAt : ℕ
  updatedAt : ℕ
deriving DecidableEq, Repr

/-- A row of the `payment_requests` table.  The decimal columns are
embedded as rationals. -/
structure PaymentRequest where
  id : ℕ
  creatorId : ℕ
  amount : ℚ
  vatRate : ℚ
  vatAmount : ℚ
  totalAmount : ℚ
  description : Option String
  status : String
  claimToken : String
  dueDate : Option ℕ
  paidAt : Option ℕ
  createdAt : ℕ
  updatedAt : ℕ
deriving DecidableEq, Repr

/-- The persistent state visible to the routes: the `creators` and
`payment_requests` tables of `DatabaseStorage`. -/
structure Storage where
  creators : List Creator
  paymentRequests : List PaymentRequest
deriving DecidableEq, Repr

/-- `Partial<PaymentRequest>` as accepted by
`DatabaseStorage.updatePaymentRequest`: each data column optionally
present.  (`id`/`createdAt` are never passed by any route.) -/
structure PaymentRequestPatch where
  creatorId : Option ℕ := none
  amount : Option ℚ := none
  vatRate : Option ℚ := none
  vatAmount : Option ℚ := none
  totalAmount : Option ℚ := none
  description : Option (Option String) := none
  status : Option String := none
  claimToken : Option String := none
  dueDate : Option (Option ℕ) := none
  paidAt : Option (Option ℕ) := none
deriving DecidableEq, Repr

/-- `.set({...updates, updatedAt: new Date()})` applied to one row. -/
def applyPRPatch (p : PaymentRequestPatch) (r : PaymentRequest) (now : ℕ) :
    PaymentRequest :=
  { r with
    creatorId := p.creatorId.getD r.creatorId
    amount := p.amount.getD r.amount
    vatRate := p.vatRate.getD r.vatRate
    vatAmount := p.vatAmount.getD r.vatAmount
    totalAmount := p.totalAmount.getD r.totalAmount
    description := p.description.getD r.description
    status := p.status.getD r.status
    claimToken := p.claimToken.getD r.claimToken
    dueDate := p.dueDate.getD r.dueDate
    paidAt := p.paidAt.getD r.paidAt
    updatedAt := now }

/-- `Partial<Creator>` as accepted by `DatabaseStorage.updateCreator`. -/
structure CreatorPatch where
  email : Option String := none
  fullName : Option String := none
  country : Option String := none
  businessType : Option String := none
  vatId : Option (Option String) := none
  companyName : Option (Option String) := none
  stripeAccountId : Option (Option String) := none
  invoiceMethod : Option String := none
  chargesEnabled : Option Bool := none
  payoutsEnabled : Option Bool := none
deriving DecidableEq, Repr

/-- `.set({...updates, updatedAt: new Date()})` applied to one creator
row. -/
def applyCreatorPatch (p : CreatorPatch) (c : Creator) (now : ℕ) : Creator :=
  { c with
    email := p.email.getD c.email
    fullName := p.fullName.getD c.fullName
    country := p.country.getD c.country
    businessType := p.businessType.getD c.businessType
    vatId := p.vatId.getD c.vatId
    companyName := p.companyName.getD c.companyName
    stripeAccountId := p.stripeAccountId.getD c.stripeAccountId
    invoiceMethod := p.invoiceMethod.getD c.invoiceMethod
    chargesEnabled := p.chargesEnabled.getD c.chargesEnabled
    payoutsEnabled := p.payoutsEnabled.getD c.payoutsEnabled
    updatedAt := now }

/-- `DatabaseStorage.getCreator`: select the row whose `id` matches. -/
def getCreator (s : Storage) (id : ℕ) : Option Creator :=
  s.creators.find? (fun c => c.id == id)

/-- `DatabaseStorage.getPaymentRequest`. -/
def getPaymentRequest (s : Storage) (id : ℕ) : Option PaymentRequest :=
  s.paymentRequests.find? (fun r => r.id == id)

/-- `DatabaseStorage.getPaymentRequestByToken`. -/
def getPaymentRequestByToken (s : Storage) (token : String) :
    Option PaymentRequest :=
  s.paymentRequests.find? (fun r => r.claimToken == token)

/-- `DatabaseStorage.updatePaymentRequest`: update every row matching
the id with the patch and a fresh `updatedAt`. -/
def updatePaymentRequestS (s : Storage) (id : ℕ) (p : PaymentRequestPatch)
    (now : ℕ) : Storage :=
  { s with
    paymentRequests :=
      s.paymentRequests.map
        (fun r => if r.id == id then applyPRPatch p r now else r) }

/-- `DatabaseStorage.updateCreator`. -/
def updateCreatorS (s : Storage) (id : ℕ) (p : CreatorPatch) (now : ℕ) :
    Storage :=
  { s with
    creators :=
      s.creators.map
        (fun c => if c.id == id then applyCreatorPatch p c now else c) }

/-- Outcome of `POST /api/claim/:token`: 404, 400 «not pending», or
success. -/
inductive ClaimOutcome
  | notFound
  | invalidState
  | ok
deriving DecidableEq, Repr

/-- `POST /api/claim/:token` from `registerRoutes`: look the request up
by token, reject with 404 when absent, with 400 when its status is not
`pending`, otherwise set the status to `claimed`. -/
def postClaim (s : Storage) (token : String) (now : ℕ) :
    ClaimOutcome × Storage :=
  match getPaymentRequestByToken s token with
  | none => (ClaimOutcome.notFound, s)
  | some request =>
    if request.status != "pending" then (ClaimOutcome.invalidState, s)
    else
      (ClaimOutcome.ok,
        updatePaymentRequestS s request.id { status := some "claimed" } now)

/-- Outcome of `POST /api/payment-requests/:id/process`. -/
inductive ProcessOutcome
  | notFound
  | accountNotFound
  | accountNotReady
  | ok
deriving DecidableEq, Repr

/-- `POST /api/payment-requests/:id/process` from `registerRoutes`
(the admin `markPaid` operation): fetch the request (404 when absent),
require the creator's Stripe account and its two capability flags
(reported by the external Stripe collaborator, here the flags stored on
the creator row), execute the transfer (external), then set the status
to `paid` and stamp `paidAt`.  The handler performs no check of the
request's current status. -/
def postProcess (s : Storage) (id : ℕ) (now : ℕ) :
    ProcessOutcome × Storage :=
  match getPaymentRequest s id with
  | none => (ProcessOutcome.notFound, s)
  | some request =>
    match getCreator s request.creatorId with
    | none => (ProcessOutcome.accountNotFound, s)
    | some creator =>
      match creator.stripeAccountId with
      | none => (ProcessOutcome.accountNotFound, s)
      | some _ =>
        if !(creator.chargesEnabled && creator.payoutsEnabled) then
          (ProcessOutcome.accountNotReady, s)
        else
          (ProcessOutcome.ok,
            updatePaymentRequestS s id
              { status := some "paid", paidAt := some (some now) } now)

/-- `POST /api/payment-requests` from `registerRoutes`: fetch the
creator (404 when absent), invoke the shared `calculateVAT` with the
creator's current country and business type, and insert a new `pending`
request carrying the frozen rate, VAT amount and total.  The fresh id,
the `nanoid` claim token and the timestamp are inputs here. -/
def postPaymentRequests (s : Storage) (creatorId : ℕ) (amount : ℚ)
    (description : Option String) (dueDate : Option ℕ)
    (claimToken : String) (newId now : ℕ) :
    Option PaymentRequest × Storage :=
  match getCreator s creatorId with
  | none => (none, s)
  | some creator =>
    let vat := calculateVAT amount creator.country creator.businessType
    let totalAmount := amount + vat.amount
    let request : PaymentRequest :=
      { id := newId
        creatorId := creatorId
        amount := amount
        vatRate := vat.rate
        vatAmount := vat.amount
        totalAmount := totalAmount
        description := description
        status := "pending"
        claimToken := claimToken
        dueDate := dueDate
        paidAt := none
        createdAt := now
        updatedAt := now }
    (some request, { s with paymentRequests := s.paymentRequests ++ [request] })

/-- `PATCH /api/creators/:id` from `registerRoutes`: 404 when the
creator is absent, otherwise (after the external Stripe account update)
apply the patch to the creator row.  The `payment_requests` table is
not touched. -/
def patchCreators (s : Storage) (id : ℕ) (p : CreatorPatch) (now : ℕ) :
    Option Creator × Storage :=
  match getCreator s id with
  | none => (none, s)
  | some _ =>
    let s1 := updateCreatorS s id p now
    (getCreator s1 id, s1)

/-- The object literal that `POST /api/creators/quick-create` passes to
`storage.createCreator`: country, business type and invoice method take
the onboarding defaults `'NL'`, `'individual'`, `'auto'`. -/
def quickCreateRow (fullName email : String) (newId now : ℕ) : Creator :=
  { id := newId
    email := email
    fullName := fullName
    country := "NL"
    businessType := "individual"
    vatId := none
    companyName := none
    stripeAccountId := none
    invoiceMethod := "auto"
    chargesEnabled := false
    payoutsEnabled := false
    createdAt := now
    updatedAt := now }

/-- `POST /api/creators/quick-create` from `registerRoutes`: reject when
full name or email is falsy (empty) or the email is already registered;
otherwise insert `quickCreateRow`, then (after the external Stripe
account creation returns `accountId`) store the Stripe account id on the
new row.  The response carries the creator as first inserted. -/
def postQuickCreate (s : Storage) (fullName email : String)
    (accountId : String) (newId now : ℕ) : Option Creator × Storage :=
  if fullName == "" || email == "" then (none, s)
  else
    match s.creators.find? (fun c => c.email == email) with
    | some _ => (none, s)
    | none =>
      let creator := quickCreateRow fullName email newId now
      let s1 : Storage := { s with creators := s.creators ++ [creator] }
      (some creator,
        updateCreatorS s1 newId { stripeAccountId := some (some accountId) }
          now)

/-- Modelled from the spec: `markFailed(id)` (spec §4.2) has no handler
in the source tree — the `failed` status appears only in the schema
comment and the dashboard UI — so it is written here from the spec's
words: allowed from any non-terminal state, transitions the request to
`failed`. -/
def markFailed (s : Storage) (id : ℕ) (now : ℕ) :
    ClaimOutcome × Storage :=
  match getPaymentRequest s id with
  | none => (ClaimOutcome.notFound, s)
  | some request =>
    if request.status == "paid" || request.status == "failed" then
      (ClaimOutcome.invalidState, s)
    else
      (ClaimOutcome.ok,
        updatePaymentRequestS s id { status := some "failed" } now)

/-- Concrete fixture: a Dutch VAT-registered creator whose Stripe
account is fully enabled. -/
def sampleCreatorNL : Creator :=
  { id := 1
    email := "creator@example.com"
    fullName := "Sample Creator"
    country := "NL"
    businessType := "vat_registered"
    vatId := some "NL000000000B01"
    companyName := some "Sample BV"
    stripeAccountId := some "acct_1"
    invoiceMethod := "auto"
    chargesEnabled := true
    payoutsEnabled := true
    createdAt := 0
    updatedAt := 0 }

/-- Concrete fixture: a pending payment request of 100 for
`sampleCreatorNL`, reachable under the token `tok`. -/
def samplePendingRequest : PaymentRequest :=
  { id := 1
    creatorId := 1
    amount := 100
    vatRate := 21 / 100
    vatAmount := 21
    totalAmount := 121
    description := none
    status := "pending"
    claimToken := "tok"
    dueDate := none
    paidAt := none
    createdAt := 0
    updatedAt := 0 }

/-- Fixture storage holding `sampleCreatorNL` and the pending request. -/
def pendingStore : Storage :=
  { creators := [sampleCreatorNL]
    paymentRequests := [samplePendingRequest] }

/-- Fixture storage in which the request has already been paid. -/
def paidStore : Storage :=
  { creators := [sampleCreatorNL]
    paymentRequests :=
      [{ samplePendingRequest with status := "paid", paidAt := some 3 }] }

/-- Fixture storage holding only `sampleCreatorNL`. -/
def creatorStore : Storage :=
  { creators := [sampleCreatorNL]
    paymentRequests := [] }

/-- Fixture: an empty storage. -/
def emptyStore : Storage :=
  { creators := [], paymentRequests := [] }

/-- Round a rational to the nearest integer, ties to even. -/
def roundNearestEven (x : ℚ) : ℤ :=
  let n : ℤ := ⌊x⌋
  let frac : ℚ := x - (n : ℚ)
  if frac < 1 / 2 then n
  else if 1 / 2 < frac then n + 1
  else if n % 2 = 0 then n else n + 1

/-- IEEE-754 binary64 round-to-nearest-even on the normal range,
expressed on rationals: scale `|q|` into `[2^52, 2^53)`, round the
scaled value to the nearest integer (ties to even), and scale back.
TypeScript `number` values and arithmetic results are doubles, i.e.
fixed points of this rounding. -/
def roundDouble (q : ℚ) : ℚ :=
  if q = 0 then 0
  else
    let e : ℤ := 52 - Int.log 2 |q|
    (if q < 0 then -1 else 1) *
      (roundNearestEven (|q| * (2 : ℚ) ^ e) : ℚ) * (2 : ℚ) ^ (-e)

/-- `calculateVAT` from `src/shared/vat-utils.ts` under the binary64
reading of TypeScript `number`: the literal `0.21` denotes the double
nearest to 21/100 and each arithmetic operation rounds its exact result
to a double.  The zero-VAT branches involve no arithmetic. -/
def calculateVATfl (amount : ℚ) (countryCode businessType : String) :
    VATResult :=
  let isDutchVatRegistered :=
    countryCode == "NL" && businessType == "vat_registered"
  let isEUNonDutchVatRegistered :=
    EU_COUNTRY_CODES.contains countryCode &&
    countryCode != "NL" &&
    businessType == "vat_registered"
  if isDutchVatRegistered then
    let rate := roundDouble (21 / 100)
    let vatAmount := roundDouble (amount * rate)
    { rate := rate
      amount := vatAmount
      total := roundDouble (amount + vatAmount)
      isEUVATShift := false
      note := "Dutch VAT (21%) applied." }
  else if isEUNonDutchVatRegistered then
    { rate := 0
      amount := 0
      total := amount
      isEUVATShift := true
      note := "EU VAT reverse charge (VAT shifted)." }
  else
    { rate := 0
      amount := 0
      total := amount
      isEUVATShift := false
      note := "No VAT applicable." }

end Payout

namespace Payout

/-- C1: for every amount `a ≥ 0`, every country-code string and every
business category, `calculateVAT` implements exactly the spec's
three-branch, first-match-wins rule set. -/
theorem calculateVAT_implements_three_branch_rules
    (a : ℚ) (h : 0 ≤ a) (c b : String) :
    calculateVAT a c b = classifySpec a c b := by
  have hset : c ∈ EU_COUNTRY_CODES ↔ c ∈ EU_SET_SPEC := by
    simp [EU_COUNTRY_CODES, EU_SET_SPEC]
  unfold calculateVAT classifySpec
  by_cases hc : c = "NL" <;> by_cases hb : b = "vat_registered" <;>
    by_cases hm : c ∈ EU_SET_SPEC <;>
      simp [hc, hb, hm, hset, VATResult.mk.injEq] <;>
        try ring

/-- Witness for C1 at the spec's concrete scenario
`classify(1000, "NL", "vat_registered")`. -/
theorem calculateVAT_implements_three_branch_rules_witness :
    (0 : ℚ) ≤ 1000 ∧
      calculateVAT 1000 "NL" "vat_registered" =
        classifySpec 1000 "NL" "vat_registered" :=
  ⟨by norm_num,
   calculateVAT_implements_three_branch_rules 1000 (by norm_num) "NL"
     "vat_registered"⟩

/-- C2: the legacy per-country percentage-table implementations
(`src/unnamed/part_003` and the inline copy in the older routes document)
are still present and disagree with the canonical classifier: at
`(1000, "NL", "individual")` both legacy versions charge 21% Dutch VAT
(210) while the canonical `calculateVAT` charges none. -/
theorem legacy_vat_tables_disagree_with_canonical :
    (legacyCalculateVAT 1000 "NL" "individual").rate = 21 ∧
    (legacyCalculateVAT 1000 "NL" "individual").amount = 210 ∧
    (routeCalculateVAT 1000 "NL" "individual").rate = 21 ∧
    (routeCalculateVAT 1000 "NL" "individual").amount = 210 ∧
    (calculateVAT 1000 "NL" "individual").rate = 0 ∧
    (calculateVAT 1000 "NL" "individual").amount = 0 := by
  refine ⟨by decide, ?_, by decide, ?_, by decide, by decide⟩
  · norm_num [legacyCalculateVAT, legacyVAT_RATES, List.find?]
    simp
  · norm_num [routeCalculateVAT, routeVatRates, List.find?]
    simp

/-- C7: the classifier is total with no error path: every result is one
of the three branch outputs, and any country code outside the EU set
(unrecognized or lower-case codes included) falls into the default
no-VAT branch with rate 0 and reverse-charge flag false. -/
theorem calculateVAT_total_default_branch (a : ℚ) (c b : String) :
    (calculateVAT a c b =
        { rate := 21 / 100, amount := a * (21 / 100),
          total := a + a * (21 / 100), isEUVATShift := false,
          note := "Dutch VAT (21%) applied." } ∨
      calculateVAT a c b =
        { rate := 0, amount := 0, total := a, isEUVATShift := true,
          note := "EU VAT reverse charge (VAT shifted)." } ∨
      calculateVAT a c b =
        { rate := 0, amount := 0, total := a, isEUVATShift := false,
          note := "No VAT applicable." }) ∧
    (c ∉ EU_COUNTRY_CODES →
      calculateVAT a c b =
        { rate := 0, amount := 0, total := a, isEUVATShift := false,
          note := "No VAT applicable." }) := by
  constructor
  · unfold calculateVAT
    dsimp only
    split
    · exact Or.inl rfl
    · split
      · exact Or.inr (Or.inl rfl)
      · exact Or.inr (Or.inr rfl)
  · intro hmem
    have hc : c ≠ "NL" := by
      intro hEq
      exact hmem (hEq ▸ (by decide : "NL" ∈ EU_COUNTRY_CODES))
    simp [calculateVAT, hc, hmem]

/-- Witness for C7 at the unrecognized lower-case code `"nl"`. -/
theorem calculateVAT_total_default_branch_witness :
    "nl" ∉ EU_COUNTRY_CODES ∧
      calculateVAT 5 "nl" "vat_registered" =
        { rate := 0, amount := 0, total := 5, isEUVATShift := false,
          note := "No VAT applicable." } :=
  ⟨by decide,
   (calculateVAT_total_default_branch 5 "nl" "vat_registered").2
     (by decide)⟩

end Payout

namespace Payout

/-- `find?` skips a prefix on which the predicate is everywhere false. -/
theorem list_find?_append_none {α : Type} (p : α → Bool) (l₁ l₂ : List α)
    (h : ∀ x ∈ l₁, p x = false) : (l₁ ++ l₂).find? p = l₂.find? p := by
  induction l₁ with
  | nil => rfl
  | cons x xs ih =>
    have hx := h x (by simp)
    simp only [List.cons_append, List.find?_cons, hx]
    exact ih (fun y hy => h y (by simp [hy]))

/-- Mapping a function that fixes every element of a list is the
identity. -/
theorem list_map_id_on {α : Type} (f : α → α) (l : List α)
    (h : ∀ x ∈ l, f x = x) : l.map f = l := by
  induction l with
  | nil => rfl
  | cons x xs ih =>
    simp only [List.map_cons, h x (by simp)]
    rw [ih (fun y hy => h y (by simp [hy]))]

/-- `find?` commutes with a map that does not change the predicate. -/
theorem list_find?_map_comm {α : Type} (f : α → α) (p : α → Bool)
    (hf : ∀ x, p (f x) = p x) (l : List α) :
    (l.map f).find? p = (l.find? p).map f := by
  induction l with
  | nil => rfl
  | cons x xs ih =>
    cases hx : p x with
    | true => simp [List.find?_cons, hf x, hx]
    | false => simp [List.find?_cons, hf x, hx, ih]

/-- A list is `Forall₂`-related to its image under `f` whenever each
element is related to its own image. -/
theorem list_forall2_map_self {α : Type} (R : α → α → Prop) (f : α → α)
    (l : List α) (h : ∀ a ∈ l, R a (f a)) :
    List.Forall₂ R l (l.map f) := by
  induction l with
  | nil => exact List.Forall₂.nil
  | cons x xs ih =>
    exact List.Forall₂.cons (h x (by simp))
      (ih (fun y hy => h y (by simp [hy])))

/-- C4: `POST /api/claim/:token` fails with NotFound when no request
matches the token, fails with InvalidState (state unchanged) when the
matched request is not `pending`, and otherwise succeeds, after which a
second claim of the same token fails with InvalidState: a claim
succeeds exactly once. -/
theorem claim_route_spec (s : Storage) (t : String) (now : ℕ) :
    (getPaymentRequestByToken s t = none →
      postClaim s t now = (ClaimOutcome.notFound, s)) ∧
    (∀ r, getPaymentRequestByToken s t = some r → r.status ≠ "pending" →
      postClaim s t now = (ClaimOutcome.invalidState, s)) ∧
    (∀ r, getPaymentRequestByToken s t = some r → r.status = "pending" →
      (postClaim s t now).1 = ClaimOutcome.ok ∧
      ∀ now2, (postClaim (postClaim s t now).2 t now2).1 =
        ClaimOutcome.invalidState) := by
  refine ⟨?_, ?_, ?_⟩
  · intro h
    simp [postClaim, h]
  · intro r hr hst
    simp [postClaim, hr, hst]
  · intro r hr hst
    have hs' : (postClaim s t now).2 =
        updatePaymentRequestS s r.id { status := some "claimed" } now := by
      simp [postClaim, hr, hst]
    have hpres : ∀ x : PaymentRequest,
        ((if x.id == r.id then
            applyPRPatch { status := some "claimed" } x now
          else x).claimToken == t) = (x.claimToken == t) := by
      intro x
      by_cases hx : (x.id == r.id) = true <;> simp [hx, applyPRPatch]
    have hfind2 : getPaymentRequestByToken (postClaim s t now).2 t =
        some (applyPRPatch { status := some "claimed" } r now) := by
      rw [hs']
      unfold getPaymentRequestByToken updatePaymentRequestS
      rw [list_find?_map_comm _ _ hpres]
      rw [show s.paymentRequests.find? (fun x => x.claimToken == t) =
        some r from hr]
      simp [applyPRPatch]
    refine ⟨by simp [postClaim, hr, hst], ?_⟩
    intro now2
    generalize hS : (postClaim s t now).2 = s2 at hfind2 ⊢
    simp [postClaim, hfind2, applyPRPatch]

/-- Witness for C4: on a pending request the claim succeeds and the
immediate re-claim is rejected. -/
theorem claim_route_spec_witness :
    (postClaim
        { creators := [],
          paymentRequests :=
            [{ id := 1, creatorId := 1, amount := 100, vatRate := 0,
               vatAmount := 0, totalAmount := 100, description := none,
               status := "pending", claimToken := "tok", dueDate := none,
               paidAt := none, createdAt := 0, updatedAt := 0 }] }
        "tok" 1).1 = ClaimOutcome.ok ∧
    ∀ now2,
      (postClaim
        (postClaim
          { creators := [],
            paymentRequests :=
              [{ id := 1, creatorId := 1, amount := 100, vatRate := 0,
                 vatAmount := 0, totalAmount := 100, description := none,
                 status := "pending", claimToken := "tok", dueDate := none,
                 paidAt := none, createdAt := 0, updatedAt := 0 }] }
          "tok" 1).2 "tok" now2).1 = ClaimOutcome.invalidState :=
  (claim_route_spec _ "tok" 1).2.2 _ rfl rfl

end Payout

namespace Payout

/-- C3: evaluation of the admin process (`markPaid`) route at a request
whose status is already `paid`: the handler performs no status check, so
instead of an InvalidState rejection it succeeds — the external transfer
is executed again — and re-stamps `paidAt` and `updatedAt`. -/
theorem process_route_accepts_paid_request :
    (postProcess paidStore 1 9).1 = ProcessOutcome.ok ∧
    (getPaymentRequest (postProcess paidStore 1 9).2 1).map
        (fun r => (r.status, r.paidAt, r.updatedAt)) =
      some ("paid", some 9, 9) := by
  exact ⟨rfl, rfl⟩

/-- C8: evaluation of the lifecycle at a request driven to `failed` by
the spec-modelled `markFailed`: the process route then succeeds and
moves it to `paid`, so the code does let a transition leave the
terminal `failed` state. -/
theorem process_route_exits_failed_state :
    (markFailed pendingStore 1 5).1 = ClaimOutcome.ok ∧
    (getPaymentRequest (markFailed pendingStore 1 5).2 1).map (·.status) =
      some "failed" ∧
    (postProcess (markFailed pendingStore 1 5).2 1 9).1 =
      ProcessOutcome.ok ∧
    (getPaymentRequest
        (postProcess (markFailed pendingStore 1 5).2 1 9).2 1).map
      (·.status) = some "paid" := by
  exact ⟨rfl, rfl, rfl, rfl⟩

/-- C9: a successful claim changes only the matched record's status
(to `claimed`) and its `updatedAt`; every other listed field of every
record, every record with a different id, and the creators table are
unchanged. -/
theorem claim_mutates_only_status_and_updatedAt
    (s : Storage) (t : String) (now : ℕ) (r : PaymentRequest)
    (hfind : getPaymentRequestByToken s t = some r)
    (hstatus : r.status = "pending") :
    (postClaim s t now).2.creators = s.creators ∧
    List.Forall₂ (fun o n =>
        n.id = o.id ∧ n.creatorId = o.creatorId ∧ n.amount = o.amount ∧
        n.vatRate = o.vatRate ∧ n.vatAmount = o.vatAmount ∧
        n.totalAmount = o.totalAmount ∧ n.description = o.description ∧
        n.claimToken = o.claimToken ∧ n.dueDate = o.dueDate ∧
        n.paidAt = o.paidAt ∧ n.createdAt = o.createdAt ∧
        (o.id = r.id → n.status = "claimed" ∧ n.updatedAt = now) ∧
        (o.id ≠ r.id → n = o))
      s.paymentRequests (postClaim s t now).2.paymentRequests := by
  have hs' : (postClaim s t now).2 =
      updatePaymentRequestS s r.id { status := some "claimed" } now := by
    simp [postClaim, hfind, hstatus]
  rw [hs']
  refine ⟨rfl, ?_⟩
  unfold updatePaymentRequestS
  apply list_forall2_map_self
  intro x hx
  by_cases hid : x.id = r.id
  · simp [hid, applyPRPatch]
  · have hb : (x.id == r.id) = false := by simp [hid]
    simp [hb, hid]

/-- Witness for C9 on the concrete pending store. -/
theorem claim_mutates_only_status_and_updatedAt_witness :
    (postClaim pendingStore "tok" 7).2.creators = pendingStore.creators ∧
    List.Forall₂ (fun o n =>
        n.id = o.id ∧ n.creatorId = o.creatorId ∧ n.amount = o.amount ∧
        n.vatRate = o.vatRate ∧ n.vatAmount = o.vatAmount ∧
        n.totalAmount = o.totalAmount ∧ n.description = o.description ∧
        n.claimToken = o.claimToken ∧ n.dueDate = o.dueDate ∧
        n.paidAt = o.paidAt ∧ n.createdAt = o.createdAt ∧
        (o.id = samplePendingRequest.id →
          n.status = "claimed" ∧ n.updatedAt = 7) ∧
        (o.id ≠ samplePendingRequest.id → n = o))
      pendingStore.paymentRequests
      (postClaim pendingStore "tok" 7).2.paymentRequests :=
  claim_mutates_only_status_and_updatedAt pendingStore "tok" 7
    samplePendingRequest rfl rfl

/-- C5: the VAT columns of a payment request are frozen at creation from
the creator's country and business type at that moment, and no later
`PATCH /api/creators/:id` (whatever fields it updates) changes any row
of the `payment_requests` table. -/
theorem vat_frozen_at_creation
    (s : Storage) (cid : ℕ) (c : Creator) (hc : getCreator s cid = some c)
    (a : ℚ) (d : Option String) (dd : Option ℕ) (tok : String)
    (nid now pid : ℕ) (p : CreatorPatch) (now2 : ℕ) :
    (∃ r, (postPaymentRequests s cid a d dd tok nid now).1 = some r ∧
      r.vatRate = (calculateVAT a c.country c.businessType).rate ∧
      r.vatAmount = (calculateVAT a c.country c.businessType).amount ∧
      r.totalAmount = a + (calculateVAT a c.country c.businessType).amount ∧
      r.status = "pending") ∧
    (patchCreators (postPaymentRequests s cid a d dd tok nid now).2 pid p
        now2).2.paymentRequests =
      (postPaymentRequests s cid a d dd tok nid now).2.paymentRequests := by
  have frame : ∀ s' : Storage,
      (patchCreators s' pid p now2).2.paymentRequests =
        s'.paymentRequests := by
    intro s'
    unfold patchCreators
    cases h2 : getCreator s' pid with
    | none => rfl
    | some c2 => rfl
  refine ⟨?_, frame _⟩
  unfold postPaymentRequests
  rw [hc]
  exact ⟨_, rfl, rfl, rfl, rfl, rfl⟩

/-- Witness for C5: a request for the Dutch VAT-registered fixture
creator freezes rate 21/100, then a country change leaves it intact. -/
theorem vat_frozen_at_creation_witness :
    (∃ r, (postPaymentRequests creatorStore 1 100 none none "tok" 1 0).1 =
        some r ∧
      r.vatRate =
        (calculateVAT 100 sampleCreatorNL.country
          sampleCreatorNL.businessType).rate ∧
      r.vatAmount =
        (calculateVAT 100 sampleCreatorNL.country
          sampleCreatorNL.businessType).amount ∧
      r.totalAmount =
        100 + (calculateVAT 100 sampleCreatorNL.country
          sampleCreatorNL.businessType).amount ∧
      r.status = "pending") ∧
    (patchCreators
        (postPaymentRequests creatorStore 1 100 none none "tok" 1 0).2 1
        { country := some "US" } 5).2.paymentRequests =
      (postPaymentRequests creatorStore 1 100 none none "tok" 1
        0).2.paymentRequests :=
  vat_frozen_at_creation creatorStore 1 sampleCreatorNL rfl 100 none none
    "tok" 1 0 1 { country := some "US" } 5

end Payout

namespace Payout

/-- C10: quick-creating a creator from a fresh email with both fields
present yields the defaults `country = 'NL'`, `businessType =
'individual'`, `invoiceMethod = 'auto'`, and a payment request created
against this creator before onboarding freezes `vatRate = 0`,
`vatAmount = 0`, `totalAmount = amount`. -/
theorem quick_create_defaults_and_zero_vat
    (s : Storage) (fn em accId : String) (nid now : ℕ)
    (hfn : fn ≠ "") (hem : em ≠ "")
    (hunreg : s.creators.find? (fun c => c.email == em) = none)
    (hfresh : ∀ c ∈ s.creators, c.id ≠ nid)
    (a : ℚ) (d : Option String) (dd : Option ℕ) (tok : String)
    (prId now2 : ℕ) :
    (∃ c, (postQuickCreate s fn em accId nid now).1 = some c ∧
      c.country = "NL" ∧ c.businessType = "individual" ∧
      c.invoiceMethod = "auto") ∧
    (∃ r, (postPaymentRequests (postQuickCreate s fn em accId nid now).2
        nid a d dd tok prId now2).1 = some r ∧
      r.vatRate = 0 ∧ r.vatAmount = 0 ∧ r.totalAmount = a) := by
  have hcond : (fn == "" || em == "") = false := by
    simp [hfn, hem]
  have hpost : postQuickCreate s fn em accId nid now =
      (some (quickCreateRow fn em nid now),
        updateCreatorS
          { s with
            creators := s.creators ++ [quickCreateRow fn em nid now] }
          nid { stripeAccountId := some (some accId) } now) := by
    simp [postQuickCreate, hcond, hunreg]
  have hgc : getCreator (postQuickCreate s fn em accId nid now).2 nid =
      some (applyCreatorPatch { stripeAccountId := some (some accId) }
        (quickCreateRow fn em nid now) now) := by
    rw [hpost]
    unfold getCreator updateCreatorS
    dsimp only
    rw [List.map_append,
      list_map_id_on _ _ (fun x hx => by simp [hfresh x hx]),
      list_find?_append_none _ _ _ (fun x hx => by simp [hfresh x hx])]
    simp [quickCreateRow, applyCreatorPatch]
  refine ⟨⟨quickCreateRow fn em nid now, by rw [hpost], rfl, rfl, rfl⟩, ?_⟩
  unfold postPaymentRequests
  rw [hgc]
  exact ⟨_, rfl, rfl, rfl, add_zero a⟩

/-- Witness for C10: quick-create in an empty store, then a request of
250 against the new creator. -/
theorem quick_create_defaults_and_zero_vat_witness :
    (∃ c, (postQuickCreate emptyStore "Jane Doe" "jane@example.com"
        "acct_2" 1 0).1 = some c ∧
      c.country = "NL" ∧ c.businessType = "individual" ∧
      c.invoiceMethod = "auto") ∧
    (∃ r, (postPaymentRequests
        (postQuickCreate emptyStore "Jane Doe" "jane@example.com"
          "acct_2" 1 0).2 1 250 none none "tok2" 1 1).1 = some r ∧
      r.vatRate = 0 ∧ r.vatAmount = 0 ∧ r.totalAmount = 250) :=
  quick_create_defaults_and_zero_vat emptyStore "Jane Doe"
    "jane@example.com" "acct_2" 1 0 (by simp) (by simp) rfl
    (by intro c hc; simp [emptyStore] at hc) 250 none none "tok2" 1 1

/-- Every output of the binary64 rounding is a dyadic rational. -/
theorem roundDouble_dyadic (q : ℚ) :
    ∃ m k : ℤ, roundDouble q = (m : ℚ) * (2 : ℚ) ^ k := by
  unfold roundDouble
  by_cases h : q = 0
  · exact ⟨0, 0, by simp [h]⟩
  · rw [if_neg h]
    dsimp only
    by_cases hq : q < 0
    · refine ⟨-roundNearestEven (|q| * (2 : ℚ) ^ (52 - Int.log 2 |q|)),
        -(52 - Int.log 2 |q|), ?_⟩
      rw [if_pos hq]
      push_cast
      ring
    · refine ⟨roundNearestEven (|q| * (2 : ℚ) ^ (52 - Int.log 2 |q|)),
        -(52 - Int.log 2 |q|), ?_⟩
      rw [if_neg hq]
      ring

/-- No dyadic rational equals 21/100. -/
theorem not_dyadic_21_100 (m k : ℤ) :
    (m : ℚ) * (2 : ℚ) ^ k ≠ 21 / 100 := by
  intro h
  rcases le_or_lt 0 k with hk | hk
  · lift k to ℕ using hk
    rw [zpow_natCast] at h
    have hz : (100 * (m * 2 ^ k) : ℤ) = 21 := by
      have h' : (100 : ℚ) * ((m * 2 ^ k : ℤ) : ℚ) = 21 := by
        push_cast
        rw [mul_comm (100 : ℚ)]
        rw [h]
        norm_num
      exact_mod_cast h'
    have h2 : ∀ t : ℤ, 100 * t ≠ 21 := by omega
    exact h2 _ hz
  · have hj : k = -((-k).toNat : ℤ) := by
      rw [Int.toNat_of_nonneg (by omega)]
      ring
    rw [hj, zpow_neg, zpow_natCast] at h
    have hpow : (0 : ℚ) < 2 ^ (-k).toNat := by positivity
    have h100 : (100 * m : ℤ) = 21 * 2 ^ (-k).toNat := by
      have h' : (100 : ℚ) * (m : ℚ) = 21 * (2 : ℚ) ^ (-k).toNat := by
        field_simp at h
        linarith [h]
      exact_mod_cast h'
    have h5 : (5 : ℤ) ∣ 21 * 2 ^ (-k).toNat :=
      ⟨20 * m, by linarith⟩
    have hp : Prime (5 : ℤ) := by norm_num
    rcases hp.dvd_mul.mp h5 with h21 | h2j
    · norm_num at h21
    · have h52 := hp.dvd_of_dvd_pow h2j
      norm_num at h52

/-- C6, counterexample: under the binary64 reading of the source's
arithmetic, the VAT amount for `calculateVAT(1, 'NL',
'vat_registered')` is a dyadic rational and therefore cannot equal
`1 * 21/100`, whose reduced denominator is 100: the claim's exactness
fails at amount 1. -/
theorem float_vat_not_exact_counterexample :
    (calculateVATfl 1 "NL" "vat_registered").amount ≠
      1 * (21 / 100 : ℚ) := by
  intro hEq
  have hred : (calculateVATfl 1 "NL" "vat_registered").amount =
      roundDouble (1 * roundDouble (21 / 100)) := rfl
  obtain ⟨m, k, hmk⟩ := roundDouble_dyadic (1 * roundDouble (21 / 100))
  rw [hred, hmk] at hEq
  rw [one_mul] at hEq
  exact not_dyadic_21_100 m k hEq

/-- C6, amended: the classifier's arithmetic is the plain `number`
(binary64) multiplication, so exactness only holds for the exact
rational reading of the source: there, for every `a ≥ 0`,
`calculateVAT(a, 'NL', 'vat_registered')` has `vatAmount = a * 21/100`
and `total = a * 121/100`; display rounding lives in the separate
`formatCurrency`. -/
theorem calculateVAT_exact_rational_NL (a : ℚ) (h : 0 ≤ a) :
    (calculateVAT a "NL" "vat_registered").rate = 21 / 100 ∧
    (calculateVAT a "NL" "vat_registered").amount = a * (21 / 100) ∧
    (calculateVAT a "NL" "vat_registered").total = a * (121 / 100) := by
  refine ⟨rfl, rfl, ?_⟩
  show a + a * (21 / 100) = a * (121 / 100)
  ring

/-- Witness for the amended C6 at amount 1000. -/
theorem calculateVAT_exact_rational_NL_witness :
    (0 : ℚ) ≤ 1000 ∧
      ((calculateVAT 1000 "NL" "vat_registered").rate = 21 / 100 ∧
      (calculateVAT 1000 "NL" "vat_registered").amount =
        1000 * (21 / 100) ∧
      (calculateVAT 1000 "NL" "vat_registered").total =
        1000 * (121 / 100)) :=
  ⟨by norm_num, calculateVAT_exact_rational_NL 1000 (by norm_num)⟩

end Payout
